import Mathlib

/-!
Verification of the ViewInk modal popup library (src/src/index.ts).

The development shallowly embeds the URL builder (`ModalPopup.buildUrl`)
and the open/close lifecycle of `ModalPopup` (`openPopup`, `closePopup`,
and the `beforeunload` cleanup handler installed by the constructor).
Strings are Lean `String`s (lists of unicode scalar characters);
JavaScript records are embedded as association lists in insertion order,
matching `Object.entries` / `Object.values` enumeration order; thrown
exceptions become `Except` values; the DOM side effects and user
callbacks are embedded as explicit counters on a state record.
-/

namespace ViewInk

/-- The allow-list test of `validateParams`: the regex `/[^a-zA-Z0-9-_]/`
matches any character outside letters, digits, hyphen, underscore; a value
is allowed when no character matches. `allowedChar c = true` iff `c` is in
the allow-list. -/
def allowedChar (c : Char) : Bool :=
  (97 ≤ c.toNat && c.toNat ≤ 122) || (65 ≤ c.toNat && c.toNat ≤ 90) ||
  (48 ≤ c.toNat && c.toNat ≤ 57) || c.toNat = 45 || c.toNat = 95

/-- A string passes the regex test of `validateParams` iff every character
is allow-listed. -/
def allowedString (s : String) : Bool :=
  s.data.all allowedChar

/-- `validateParams` (src/src/index.ts lines 116-122): iterates over
`Object.values(params)` and throws on any value with a disallowed
character. `true` means no throw. Keys are never inspected. -/
def validateParams (params : List (String × String)) : Bool :=
  params.all fun kv => allowedString kv.2

/-- UTF-8 encoding of one unicode scalar, as the byte values (`Nat`s
below 256). `URLSearchParams` serialisation operates on the UTF-8
encoding of its inputs. -/
def utf8Bytes (c : Char) : List Nat :=
  let n := c.toNat
  if n < 128 then [n]
  else if n < 2048 then [192 + n / 64, 128 + n % 64]
  else if n < 65536 then [224 + n / 4096, 128 + (n / 64) % 64, 128 + n % 64]
  else [240 + n / 262144, 128 + (n / 4096) % 64, 128 + (n / 64) % 64, 128 + n % 64]

/-- Upper-case hexadecimal digit for a value below 16. -/
def hexDigit (n : Nat) : Char :=
  if n < 10 then Char.ofNat (48 + n) else Char.ofNat (55 + n)

/-- The `application/x-www-form-urlencoded` serialiser's treatment of one
byte: ASCII alphanumerics and `*`, `-`, `.`, `_` pass through, space
becomes `+`, everything else is percent-encoded. -/
def formEncodeByte (b : Nat) : List Char :=
  if (48 ≤ b && b ≤ 57) || (65 ≤ b && b ≤ 90) || (97 ≤ b && b ≤ 122) ||
     b = 42 || b = 45 || b = 46 || b = 95 then [Char.ofNat b]
  else if b = 32 then ['+']
  else ['%', hexDigit (b / 16), hexDigit (b % 16)]

/-- Form-urlencode a whole string, as `URLSearchParams.toString` does to
each key and value. -/
def formEncode (s : String) : String :=
  ⟨(s.data.flatMap utf8Bytes).flatMap formEncodeByte⟩

/-- `new URLSearchParams(queryParams).toString()` (src/src/index.ts line
134-135): serialise the pairs in insertion order as
`key=value&key2=value2` with form-urlencoding. Empty map gives `""`. -/
def queryString (qs : List (String × String)) : String :=
  String.intercalate "&" (qs.map fun kv => formEncode kv.1 ++ "=" ++ formEncode kv.2)

/-- `url.replace(pat, v)` for a string pattern, on character lists:
JavaScript `String.prototype.replace` with a string first argument
replaces only the first occurrence, literally; when the pattern does not
occur the string is returned unchanged. -/
def replaceFirstAux (s pat v : List Char) : List Char :=
  match s with
  | [] => []
  | c :: cs => if pat.isPrefixOf (c :: cs) then v ++ (c :: cs).drop pat.length
               else c :: replaceFirstAux cs pat v

/-- String-level wrapper of `replaceFirstAux`. -/
def replaceFirst (s pat v : String) : String :=
  ⟨replaceFirstAux s.data pat.data v.data⟩

/-- The two exception kinds `buildUrl` can throw: `'URL is required.'`
and `'Invalid characters in URL parameters.'`. -/
inductive UrlError where
  | configurationError : UrlError
  | validationError : UrlError
deriving DecidableEq

/-- The placeholder-substitution loop of `buildUrl` (src/src/index.ts
lines 128-131): for each `[key, value]` of `Object.entries(pathParams)`
in order, `url = url.replace(":" + key, value)`. -/
def substPath (url : String) (pathParams : List (String × String)) : String :=
  pathParams.foldl (fun u kv => replaceFirst u (":" ++ kv.1) kv.2) url

/-- `ModalPopup.buildUrl` (src/src/index.ts lines 111-136).
`this.modalUrl` is `Option String`; `if (!this.modalUrl)` also fires on
the empty string (falsy). Path values are validated first, then query
values, then placeholders are substituted and the query string appended
(always, with a `?` separator, even when empty). -/
def buildUrl (modalUrl : Option String) (pathParams queryParams : List (String × String)) :
    Except UrlError String :=
  match modalUrl with
  | none => .error .configurationError
  | some url =>
    if url = "" then .error .configurationError
    else if validateParams pathParams = false then .error .validationError
    else if validateParams queryParams = false then .error .validationError
    else .ok (substPath url pathParams ++ "?" ++ queryString queryParams)

/-- The constructor's `this.modalUrl = cfg.url || null`
(src/src/index.ts line 76): an absent or empty (falsy) configured URL
becomes `null`. -/
def mkModalUrl (cfgUrl : Option String) : Option String :=
  match cfgUrl with
  | none => none
  | some u => if u = "" then none else some u

/-- Observable state of one `ModalPopup` instance together with the part
of the document it owns. `modalOpen` is the `modalElementMap` association
(the recorded subtree, identified by its iframe URL); `attachedCount`
counts this instance's subtrees currently attached to `document.body`;
`openCount` / `closeCount` count invocations of the `onOpen` / `onClose`
callbacks; `warnCount` / `errorCount` count `console.warn` /
`console.error` diagnostics. -/
structure PopupState where
  modalOpen : Option String
  attachedCount : Nat
  openCount : Nat
  closeCount : Nat
  warnCount : Nat
  errorCount : Nat
deriving DecidableEq

/-- The exceptions the `try` block of `openPopup` can see: the
environment check's throw, or an exception from `buildUrl`. -/
inductive OpenError where
  | envError : OpenError
  | urlError : UrlError → OpenError

/-- The `try` block of `ModalPopup.openPopup` (src/src/index.ts lines
148-162): environment check, already-open guard (a warned normal return,
not a throw), `buildUrl`, element creation, association recording, DOM
attachment, `onOpen`. -/
def openPopupBody (browser : Bool) (modalUrl : Option String)
    (pathParams queryParams : List (String × String)) (st : PopupState) :
    Except OpenError PopupState :=
  if browser = false then .error .envError
  else if st.modalOpen.isSome then .ok { st with warnCount := st.warnCount + 1 }
  else match buildUrl modalUrl pathParams queryParams with
    | .error e => .error (.urlError e)
    | .ok url => .ok { st with
        modalOpen := some url,
        attachedCount := st.attachedCount + 1,
        openCount := st.openCount + 1 }

/-- `ModalPopup.openPopup` (src/src/index.ts lines 147-166): the whole
body runs inside `try { ... } catch (error) { console.error(...) }`, so
every thrown error is converted to one `console.error` diagnostic and the
call returns normally. -/
def openPopup (browser : Bool) (modalUrl : Option String)
    (pathParams queryParams : List (String × String)) (st : PopupState) : PopupState :=
  match openPopupBody browser modalUrl pathParams queryParams st with
  | .ok s => s
  | .error _ => { st with errorCount := st.errorCount + 1 }

/-- `ModalPopup.closePopup` (src/src/index.ts lines 172-181): when an
association is recorded, detach the subtree and clear the association;
otherwise `console.warn`. In both cases `this.onClose()` runs
unconditionally afterwards. -/
def closePopup (st : PopupState) : PopupState :=
  match st.modalOpen with
  | some _ => { st with
      modalOpen := none,
      attachedCount := st.attachedCount - 1,
      closeCount := st.closeCount + 1 }
  | none => { st with
      warnCount := st.warnCount + 1,
      closeCount := st.closeCount + 1 }

/-- The action the constructor's debounced `beforeunload` listener
performs when it finally fires (src/src/index.ts lines 92-99): it calls
`(window as any).closePopup?.()`, an optional GLOBAL property of
`window`, not `this.closePopup()`. `globalClosePopup` is that global
(`none` when, as in any page that does not define one, it is undefined:
the optional call is then a no-op). -/
def beforeunloadAction (globalClosePopup : Option (PopupState → PopupState))
    (st : PopupState) : PopupState :=
  match globalClosePopup with
  | some f => f st
  | none => st

/-- The at-most-one-subtree invariant: the number of this instance's
subtrees attached to the document is 1 when an association is recorded
and 0 otherwise (in particular it is never more than one). -/
def popupInv (st : PopupState) : Prop :=
  st.attachedCount = if st.modalOpen.isSome then 1 else 0

/-- C1: a controller configured with base template
`"https://example.com/:store_name/:product_slug/"`, given path params
`{store_name: "store", product_slug: "666"}` and query params
`{color: "black", size: "medium"}`, builds exactly
`"https://example.com/store/666/?color=black&size=medium"`. -/
theorem buildUrl_example :
    buildUrl (mkModalUrl (some "https://example.com/:store_name/:product_slug/"))
      [("store_name", "store"), ("product_slug", "666")]
      [("color", "black"), ("size", "medium")]
      = .ok "https://example.com/store/666/?color=black&size=medium" := by
  rfl

/-- `validateParams` rejects a map exactly when some value has a
character outside the allow-list. -/
theorem validateParams_eq_false_iff (l : List (String × String)) :
    validateParams l = false ↔ ∃ kv ∈ l, ∃ c ∈ kv.2.data, allowedChar c = false := by
  simp [validateParams, allowedString, List.all_eq_false, Bool.not_eq_true]

/-- C2: with a configured (hence non-empty) base template, `buildUrl`
fails with the validation error exactly when some value of either
parameter map contains a character outside `[A-Za-z0-9_-]`; with all
values allow-listed it never throws the validation error. -/
theorem buildUrl_validation_iff (t : String) (p q : List (String × String)) (ht : t ≠ "") :
    buildUrl (some t) p q = .error .validationError ↔
      ∃ kv ∈ p ++ q, ∃ c ∈ kv.2.data, allowedChar c = false := by
  by_cases hp : validateParams p = false
  · have hR : ∃ kv ∈ p ++ q, ∃ c ∈ kv.2.data, allowedChar c = false := by
      rcases (validateParams_eq_false_iff p).mp hp with ⟨kv, hkv, c, hc, hcf⟩
      exact ⟨kv, List.mem_append_left _ hkv, c, hc, hcf⟩
    have hL : buildUrl (some t) p q = .error .validationError := by
      simp [buildUrl, ht, hp]
    exact iff_of_true hL hR
  · have hp1 : validateParams p = true := by
      cases h : validateParams p
      · exact absurd h hp
      · rfl
    by_cases hq : validateParams q = false
    · have hR : ∃ kv ∈ p ++ q, ∃ c ∈ kv.2.data, allowedChar c = false := by
        rcases (validateParams_eq_false_iff q).mp hq with ⟨kv, hkv, c, hc, hcf⟩
        exact ⟨kv, List.mem_append_right _ hkv, c, hc, hcf⟩
      have hL : buildUrl (some t) p q = .error .validationError := by
        simp [buildUrl, ht, hp1, hq]
      exact iff_of_true hL hR
    · have hq1 : validateParams q = true := by
        cases h : validateParams q
        · exact absurd h hq
        · rfl
      have hR : ¬ ∃ kv ∈ p ++ q, ∃ c ∈ kv.2.data, allowedChar c = false := by
        rintro ⟨kv, hkv, c, hc, hcf⟩
        rcases List.mem_append.mp hkv with h | h
        · rw [(validateParams_eq_false_iff p).mpr ⟨kv, h, c, hc, hcf⟩] at hp1
          exact Bool.noConfusion hp1
        · rw [(validateParams_eq_false_iff q).mpr ⟨kv, h, c, hc, hcf⟩] at hq1
          exact Bool.noConfusion hq1
      have hL : buildUrl (some t) p q = .ok (substPath t p ++ "?" ++ queryString q) := by
        simp [buildUrl, ht, hp1, hq1]
      rw [hL]
      exact iff_of_false (by simp) hR

/-- Witness for C2: a value containing a space makes `buildUrl` throw the
validation error. -/
theorem buildUrl_validation_iff_witness :
    buildUrl (some "x") [("a", "b c")] ([] : List (String × String)) =
      .error .validationError := by
  have h := buildUrl_validation_iff "x" [("a", "b c")] [] (by decide)
  exact h.mpr ⟨("a", "b c"), by simp, ' ', by decide, by decide⟩

/-- C10: `buildUrl` validates only values, never keys: whenever every
value of both maps is allow-listed, the call succeeds — regardless of
what characters the keys contain — and the keys are used verbatim via
`substPath` (which searches for the literal `":" ++ key`) and the query
serialiser. -/
theorem buildUrl_keys_unvalidated (t : String) (p q : List (String × String)) (ht : t ≠ "")
    (hp : validateParams p = true) (hq : validateParams q = true) :
    buildUrl (some t) p q = .ok (substPath t p ++ "?" ++ queryString q) := by
  simp [buildUrl, ht, hp, hq]

/-- Witness for C10: keys containing a space and an ampersand (outside
the allow-list) do not trigger validation when the values are clean. -/
theorem buildUrl_keys_unvalidated_witness :
    buildUrl (some "x/:a b") [("a b", "v")] [("k&", "w")] =
      .ok (substPath "x/:a b" [("a b", "v")] ++ "?" ++ queryString [("k&", "w")]) :=
  buildUrl_keys_unvalidated "x/:a b" [("a b", "v")] [("k&", "w")]
    (by decide) (by decide) (by decide)

/-- C7: with a configured template and valid path values, `buildUrl`
with an empty query map still appends the query suffix: the result is
the substituted URL followed by a literal trailing `?` (its last
character is `?`). -/
theorem buildUrl_empty_query (t : String) (p : List (String × String)) (ht : t ≠ "")
    (hp : validateParams p = true) :
    buildUrl (some t) p [] = .ok (substPath t p ++ "?") ∧
      (substPath t p ++ "?").data.getLast? = some '?' := by
  constructor
  · have hq : queryString ([] : List (String × String)) = "" := rfl
    simp [buildUrl, ht, hp, hq]
    rfl
  · have h1 : (substPath t p ++ "?").data = (substPath t p).data ++ ['?'] :=
      String.data_append _ _
    rw [h1]
    simp

/-- Witness for C7: a concrete template and path map, empty query map. -/
theorem buildUrl_empty_query_witness :
    buildUrl (some "a/:b/") [("b", "1")] [] = .ok (substPath "a/:b/" [("b", "1")] ++ "?") ∧
      (substPath "a/:b/" [("b", "1")] ++ "?").data.getLast? = some '?' :=
  buildUrl_empty_query "a/:b/" [("b", "1")] (by decide) (by decide)

/-- C8: with no base URL configured, `buildUrl` fails with the
configuration error for every pair of parameter maps, even ones whose
values would fail validation — the URL check precedes validation and
substitution. -/
theorem buildUrl_requires_url (pathParams queryParams : List (String × String)) :
    buildUrl none pathParams queryParams = .error .configurationError := by
  rfl

/-- Helper for C9: on the concrete template the substitution loop with
parameter name `a` replaces the first occurrence of the substring `:a`,
which is the prefix of the placeholder `:a_b`. -/
theorem substPath_prefix_rewrite (lv : List Char) :
    substPath "https://example.com/:a_b/" [("a", (⟨lv⟩ : String))] =
      ⟨"https://example.com/".data ++ (lv ++ "_b/".data)⟩ :=
  rfl

/-- C9: substitution is literal first-substring replacement, not
token-based placeholder matching: a path parameter named `a` applied to
the template `"https://example.com/:a_b/"` rewrites the prefix `:a`
inside the longer placeholder `:a_b` for every allow-listed value,
leaving the identifier remainder `_b` in place. -/
theorem buildUrl_literal_replacement (v : String) (hv : allowedString v = true) :
    buildUrl (some "https://example.com/:a_b/") [("a", v)] [] =
      .ok ("https://example.com/" ++ v ++ "_b/?") := by
  obtain ⟨lv⟩ := v
  have hval : validateParams [("a", (⟨lv⟩ : String))] = true := by
    simp [validateParams]
    exact hv
  have ht : ("https://example.com/:a_b/" : String) ≠ "" := by decide
  have hL : buildUrl (some "https://example.com/:a_b/") [("a", (⟨lv⟩ : String))] [] =
      .ok (substPath "https://example.com/:a_b/" [("a", (⟨lv⟩ : String))] ++ "?" ++
        queryString []) := by
    simp [buildUrl, ht, hval]
    rfl
  rw [hL, substPath_prefix_rewrite]
  congr 1
  apply String.ext
  show ("https://example.com/".data ++ (lv ++ "_b/".data)) ++ "?".data ++ [] =
    ("https://example.com/".data ++ lv) ++ "_b/?".data
  simp

/-- Witness for C9: with value `"x"` the template placeholder `:a_b`
becomes `x_b`. -/
theorem buildUrl_literal_replacement_witness :
    buildUrl (some "https://example.com/:a_b/") [("a", "x")] [] =
      .ok ("https://example.com/" ++ "x" ++ "_b/?") :=
  buildUrl_literal_replacement "x" (by decide)

/-- C3: `openPopup` never raises past its own boundary: on every input
it returns normally, and either the open callback fired (success), or
the callback did not fire, the association and attached subtrees are
untouched, and a diagnostic was logged (a `console.error` for a caught
exception, a `console.warn` for the already-open no-op). -/
theorem openPopup_never_raises (browser : Bool) (modalUrl : Option String)
    (p q : List (String × String)) (st : PopupState) :
    (openPopup browser modalUrl p q st).openCount = st.openCount + 1 ∨
    ((openPopup browser modalUrl p q st).openCount = st.openCount ∧
      (openPopup browser modalUrl p q st).modalOpen = st.modalOpen ∧
      (openPopup browser modalUrl p q st).attachedCount = st.attachedCount ∧
      ((openPopup browser modalUrl p q st).errorCount = st.errorCount + 1 ∨
       (openPopup browser modalUrl p q st).warnCount = st.warnCount + 1)) := by
  cases browser
  · right
    simp [openPopup, openPopupBody]
  · cases hmo : st.modalOpen with
    | some u =>
      right
      simp [openPopup, openPopupBody, hmo]
    | none =>
      cases hb : buildUrl modalUrl p q with
      | error e =>
        right
        simp [openPopup, openPopupBody, hmo, hb]
      | ok u =>
        left
        simp [openPopup, openPopupBody, hmo, hb]

/-- C4: the at-most-one-subtree invariant is preserved by `openPopup`
and `closePopup`; an in-browser `openPopup` while a subtree is recorded
is exactly a warning-logging no-op; and from a closed state in which
`buildUrl` succeeds, two consecutive `openPopup` calls leave exactly one
subtree attached, fire the open callback exactly once, and log exactly
one warning. -/
theorem popup_at_most_one_subtree (browser : Bool) (modalUrl : Option String)
    (p q : List (String × String)) (st : PopupState) (hinv : popupInv st) :
    popupInv (openPopup browser modalUrl p q st) ∧
    popupInv (closePopup st) ∧
    (st.modalOpen.isSome →
      openPopup true modalUrl p q st = { st with warnCount := st.warnCount + 1 }) ∧
    (st.modalOpen = none → ∀ u, buildUrl modalUrl p q = .ok u →
      (openPopup true modalUrl p q (openPopup true modalUrl p q st)).attachedCount = 1 ∧
      (openPopup true modalUrl p q (openPopup true modalUrl p q st)).openCount =
        st.openCount + 1 ∧
      (openPopup true modalUrl p q (openPopup true modalUrl p q st)).warnCount =
        st.warnCount + 1) := by
  refine ⟨?_, ?_, ?_, ?_⟩
  · cases browser
    · simpa [openPopup, openPopupBody] using hinv
    · cases hmo : st.modalOpen with
      | some u =>
        simp [popupInv, openPopup, openPopupBody, hmo] at hinv ⊢
        exact hinv
      | none =>
        cases hb : buildUrl modalUrl p q with
        | error e =>
          simp [popupInv, openPopup, openPopupBody, hmo, hb] at hinv ⊢
          exact hinv
        | ok u =>
          simp [popupInv, openPopup, openPopupBody, hmo, hb] at hinv ⊢
          omega
  · cases hmo : st.modalOpen with
    | some u =>
      simp [popupInv, closePopup, hmo] at hinv ⊢
      omega
    | none =>
      simp [popupInv, closePopup, hmo] at hinv ⊢
      exact hinv
  · intro hsome
    simp [openPopup, openPopupBody, hsome]
  · intro hmo u hb
    have h0 : st.attachedCount = 0 := by simpa [popupInv, hmo] using hinv
    simp [openPopup, openPopupBody, hmo, hb, h0]

/-- Witness for C4: double open of a controller configured with template
`"x"` from the pristine closed state. -/
theorem popup_at_most_one_subtree_witness :
    (openPopup true (some "x") [] []
        (openPopup true (some "x") [] [] ⟨none, 0, 0, 0, 0, 0⟩)).attachedCount = 1 ∧
    (openPopup true (some "x") [] []
        (openPopup true (some "x") [] [] ⟨none, 0, 0, 0, 0, 0⟩)).openCount = 1 ∧
    (openPopup true (some "x") [] []
        (openPopup true (some "x") [] [] ⟨none, 0, 0, 0, 0, 0⟩)).warnCount = 1 :=
  (popup_at_most_one_subtree true (some "x") [] [] ⟨none, 0, 0, 0, 0, 0⟩ rfl).2.2.2
    rfl "x?" rfl

/-- C5: `closePopup` invokes the close callback exactly once on every
call; when no subtree is recorded it is, apart from that callback,
exactly a warning-logging no-op (no error, no throw, no other change). -/
theorem closePopup_always_notifies (st : PopupState) :
    (closePopup st).closeCount = st.closeCount + 1 ∧
    (st.modalOpen = none →
      closePopup st =
        { st with warnCount := st.warnCount + 1, closeCount := st.closeCount + 1 }) := by
  constructor
  · cases hmo : st.modalOpen <;> simp [closePopup, hmo]
  · intro hmo
    simp [closePopup, hmo]

/-- Witness for C5: closing the pristine controller state, where nothing
is open, fires the close callback once and warns once. -/
theorem closePopup_always_notifies_witness :
    (closePopup ⟨none, 0, 0, 0, 0, 0⟩).closeCount = 1 ∧
    (closePopup ⟨none, 0, 0, 0, 0, 0⟩).warnCount = 1 := by
  have h := closePopup_always_notifies ⟨none, 0, 0, 0, 0, 0⟩
  refine ⟨h.1, ?_⟩
  rw [h.2 rfl]

/-- C6 (refuting the claim as stated): the debounced `beforeunload`
listener invokes the optional global `window.closePopup`, not the
instance's own `closePopup`. In a page that defines no such global the
unload action is the identity: a controller with an open subtree keeps
it attached and its close callback never runs, so no close attempt on
the controller's own open/close lifecycle happens before teardown. -/
theorem beforeunload_no_close :
    beforeunloadAction none ⟨some "https://example.com/store/666/?", 1, 1, 0, 0, 0⟩ =
      ⟨some "https://example.com/store/666/?", 1, 1, 0, 0, 0⟩ ∧
    (beforeunloadAction none
        ⟨some "https://example.com/store/666/?", 1, 1, 0, 0, 0⟩).closeCount = 0 :=
  ⟨rfl, rfl⟩

end ViewInk
